import Mathlib

/-!
Shallow embedding of the two trading clients of the mchacks-25 repository
(`src/my_algo.py`, class `TradingBot`, and `src/manual_trader.py`, class
`ManualTrader`) together with proofs settling the frozen claims about the
session-protocol core: ledger bookkeeping on fills, step pacing (DONE
signals), snapshot deduplication, latency sampling, order-id generation,
registration, and decode-error handling.

Modelling conventions:
* Python floats are modelled as rationals (`ℚ`), Python ints as `Int`/`Nat`.
* `time.time()` readings are explicit rational arguments to the handlers.
* A Python dict keyed by strings is an insertion-ordered association list.
* WebSocket sends are modelled as emitted messages in the handler's result;
  message receipt is a call of the handler on an already-decoded value, with
  a dedicated `malformed` constructor standing for a payload on which
  `json.loads` raises.  A handler that catches exceptions is a total
  function; `ManualTrader`'s handlers, which have no `try`, return `Except`.
-/

set_option maxHeartbeats 1000000

/-! ### Decimal rendering of naturals (Python `str(int)` on nonnegative values)

`my_algo.py` line 257 builds `order_id` via an f-string from the current step
and the running order count; `manual_trader.py` line 230 renders a millisecond
timestamp.  Both render nonnegative integers in decimal. -/

/-- Fuel-indexed most-significant-first decimal digits; with fuel above the
argument it agrees with the usual recursion `n ↦ digits (n / 10) ++ [n % 10]`. -/
def decDigitsAux : Nat → Nat → List Nat
  | 0, _ => []
  | fuel + 1, n => if n < 10 then [n] else decDigitsAux fuel (n / 10) ++ [n % 10]

/-- Decimal digits of `n`, most significant first (`[0]` for `0`). -/
def decDigits (n : Nat) : List Nat := decDigitsAux (n + 1) n

/-- Value of a most-significant-first digit list. -/
def fromDigits (l : List Nat) : Nat := l.foldl (fun a d => 10 * a + d) 0

/-- Character of a single decimal digit. -/
def digitChar (d : Nat) : Char := Char.ofNat (48 + d)

/-- Python's `str` on a nonnegative integer: its decimal digit characters. -/
def pyStr (n : Nat) : String := String.mk ((decDigits n).map digitChar)

/-! ### Shared wire-protocol vocabulary -/

/-- An outbound message on the order channel.  `botOrder` is the JSON object
built in `TradingBot._send_order` (`my_algo.py` lines 259-264), `manualOrder`
the one built in `ManualTrader.start` (`manual_trader.py` lines 231-238),
`cancelOrder` the cancel request, `done` the step-advance signal. -/
inductive WireMsg where
  | botOrder (order_id side : String) (price : ℚ) (qty : Int)
  | manualOrder (order_id ticker side : String) (price : ℚ) (qty : Int)
  | cancelOrder (order_id : String)
  | done
  deriving DecidableEq

/-- Recognizer for the DONE step-advance signal. -/
def WireMsg.isDone : WireMsg → Bool
  | .done => true
  | _ => false

/-- Number of DONE signals in a list of outbound messages. -/
def doneCount (l : List WireMsg) : Nat := (l.filter WireMsg.isDone).length

/-- Order id of an outbound order message (empty for non-orders). -/
def WireMsg.orderIdOf : WireMsg → String
  | .botOrder oid _ _ _ => oid
  | .manualOrder oid _ _ _ _ => oid
  | .cancelOrder oid => oid
  | .done => ""

/-- Order id generated by `TradingBot._send_order` (`my_algo.py` line 257):
`f"ORD_{self.student_id}_{self.current_step}_{self.orders_sent}"`. -/
def mkOrderId (sid : String) (step seq : Nat) : String :=
  "ORD_" ++ sid ++ "_" ++ pyStr step ++ "_" ++ pyStr seq

/-- Order id generated by `ManualTrader.start` (`manual_trader.py` line 230):
`f"manual_{int(time.time()*1000)}"`, a function of the millisecond clock only. -/
def manualOrderId (tms : Nat) : String := "manual_" ++ pyStr tms

/-! ### TradingBot (`src/my_algo.py`) -/

namespace TradingBot

/-- Mutable state of a `TradingBot` instance (`__init__`, lines 47-75).  The
matplotlib history buffers (lines 60-63) belong to the excluded display
collaborator and carry no protocol state, so they are not modelled. -/
structure BotState where
  inventory : Int
  cash_flow : ℚ
  pnl : ℚ
  current_step : Nat
  orders_sent : Nat
  last_bid : ℚ
  last_ask : ℚ
  last_mid : ℚ
  last_done_time : Option ℚ
  step_latencies : List ℚ
  order_send_times : List (String × ℚ)
  fill_latencies : List ℚ
  deriving DecidableEq

/-- State right after `__init__`. -/
def initBotState : BotState :=
  { inventory := 0, cash_flow := 0, pnl := 0, current_step := 0, orders_sent := 0,
    last_bid := 0, last_ask := 0, last_mid := 0, last_done_time := none,
    step_latencies := [], order_send_times := [], fill_latencies := [] }

/-- Python dict read `d.get(k)` / membership `k in d` on a string-keyed dict
modelled as an insertion-ordered association list with unique keys. -/
def dictGet (k : String) : List (String × ℚ) → Option ℚ
  | [] => none
  | (k', v) :: rest => if k' = k then some v else dictGet k rest

/-- Python dict write `d[k] = v`: overwrite in place, else append at the end. -/
def dictInsert (k : String) (v : ℚ) : List (String × ℚ) → List (String × ℚ)
  | [] => [(k, v)]
  | (k', v') :: rest =>
    if k' = k then (k', v) :: rest else (k', v') :: dictInsert k v rest

/-- Python dict delete `del d[k]`. -/
def dictRemove (k : String) : List (String × ℚ) → List (String × ℚ)
  | [] => []
  | (k', v') :: rest => if k' = k then rest else (k', v') :: dictRemove k rest

/-- Python `round` to the nearest integer, ties to even, on the exact
rational value. -/
def pyRound0 (x : ℚ) : ℤ :=
  let f := x.floor
  let r := x - (f : ℚ)
  if r < 1 / 2 then f
  else if (1 : ℚ) / 2 < r then f + 1
  else if f % 2 = 0 then f else f + 1

/-- Python `round(x, 2)` (as used on prices in `decide_order`). -/
def round2 (x : ℚ) : ℚ := (pyRound0 (100 * x) : ℚ) / 100

/-- Dict returned by `decide_order` (lines 242-249): `side`/`price`/`qty`. -/
structure OrderIntent where
  side : String
  price : ℚ
  qty : Int
  deriving DecidableEq

/-- `TradingBot.decide_order` (lines 228-249). -/
def decide_order (s : BotState) (bid ask mid : ℚ) : Option OrderIntent :=
  if mid ≤ 0 ∨ bid ≤ 0 ∨ ask ≤ 0 then none
  else if s.current_step % 50 ≠ 0 then none
  else if 200 < s.inventory then some ⟨"SELL", round2 bid, 100⟩
  else if s.inventory < -200 then some ⟨"BUY", round2 ask, 100⟩
  else if (s.current_step / 50) % 2 = 0 then some ⟨"BUY", round2 ask, 100⟩
  else some ⟨"SELL", round2 bid, 100⟩

/-- `TradingBot._send_order` (lines 255-271): generate the order id, record
the send timestamp, emit the order message, bump the counter. -/
def send_order (sid : String) (s : BotState) (o : OrderIntent) (tSend : ℚ) :
    BotState × WireMsg :=
  let oid := mkOrderId sid s.current_step s.orders_sent
  ({ s with
      order_send_times := dictInsert oid tSend s.order_send_times,
      orders_sent := s.orders_sent + 1 },
    .botOrder oid o.side o.price o.qty)

/-- `TradingBot._send_done` (lines 273-279): emit the DONE signal and record
its wall-clock send time. -/
def send_done (s : BotState) (tDone : ℚ) : BotState × WireMsg :=
  ({ s with last_done_time := some tDone }, .done)

/-- Fields `_on_market_data` reads from a decoded market message, with the
Python `data.get` defaults already applied (`step` 0, `bid`/`ask` 0.0);
`type` is `data.get("type")`, absent ⇒ `none`. -/
structure MarketData where
  type : Option String
  step : Nat
  bid : ℚ
  ask : ℚ
  deriving DecidableEq

/-- A delivery on the market channel: either a payload `json.loads` decodes
to `d`, or one on which it raises. -/
inductive BotMarketMsg where
  | malformed
  | parsed (d : MarketData)
  deriving DecidableEq

/-- Console output of `_on_market_data`: the periodic progress line
(line 191) and the `Market data error` line of the `except` branch
(line 222). -/
inductive BotLog where
  | progress
  | decodeError
  deriving DecidableEq

/-- Result of one `_on_market_data` callback: the updated state, the
messages sent on the order channel, and the console output. -/
structure BotMarketResult where
  state : BotState
  msgs : List WireMsg
  logs : List BotLog
  deriving DecidableEq

/-- `TradingBot._on_market_data` (lines 168-222).  `tRecv`, `tSend`, `tDone`
are the three `time.time()` readings (arrival, order send, DONE send);
`sockOpen` is the truthiness of `self.order_ws and self.order_ws.sock` on
line 215. -/
def on_market_data (sid : String) (sockOpen : Bool) (s : BotState)
    (tRecv tSend tDone : ℚ) (m : BotMarketMsg) : BotMarketResult :=
  match m with
  | .malformed => ⟨s, [], [.decodeError]⟩
  | .parsed d =>
    if d.type = some "CONNECTED" then ⟨s, [], []⟩
    else
      let s1 :=
        match s.last_done_time with
        | some t0 =>
          { s with step_latencies := s.step_latencies ++ [(tRecv - t0) * 1000] }
        | none => s
      let s2 := { s1 with current_step := d.step, last_bid := d.bid, last_ask := d.ask }
      let logs :=
        if s2.current_step % 500 = 0 ∧ s2.step_latencies ≠ [] then [BotLog.progress]
        else []
      let mid :=
        if 0 < d.bid ∧ 0 < d.ask then (d.bid + d.ask) / 2
        else if 0 < d.bid then d.bid
        else if 0 < d.ask then d.ask
        else 0
      let s3 := { s2 with last_mid := mid }
      match decide_order s3 s3.last_bid s3.last_ask s3.last_mid, sockOpen with
      | some o, true =>
        let p := send_order sid s3 o tSend
        let q := send_done p.1 tDone
        ⟨q.1, [p.2, q.2], logs⟩
      | _, _ =>
        let q := send_done s3 tDone
        ⟨q.1, [q.2], logs⟩

/-- A delivery on the order channel, after `json.loads` and the
`data.get("type")` dispatch of `_on_order_response`; field defaults
(`qty` 0, `price` 0, `side` `""`, `order_id` `""`) already applied. -/
inductive OrderMsg where
  | malformed
  | authenticated
  | fill (order_id side : String) (price : ℚ) (qty : Int)
  | error (message : Option String)
  | other (type : Option String)
  deriving DecidableEq

/-- Console output of `_on_order_response`.  The `anomaly` constructor is
vocabulary needed to state the spec's claim that an unmatched fill is
"logged as an anomaly"; the source has no such branch and never emits it. -/
inductive OrderEvent where
  | authenticatedPrint
  | fillPrint (side : String) (qty : Int) (price : ℚ) (inventory : Int) (pnl : ℚ)
  | anomaly (order_id : String)
  | errorPrint (message : Option String)
  | handlerError
  deriving DecidableEq

/-- Recognizer for the anomaly log entry. -/
def OrderEvent.isAnomaly : OrderEvent → Bool
  | .anomaly _ => true
  | _ => false

/-- `TradingBot._on_order_response` (lines 281-317).  `tRecv` is the
`time.time()` reading on entry. -/
def on_order_response (s : BotState) (tRecv : ℚ) (m : OrderMsg) :
    BotState × List OrderEvent :=
  match m with
  | .malformed => (s, [.handlerError])
  | .authenticated => (s, [.authenticatedPrint])
  | .error msg => (s, [.errorPrint msg])
  | .other _ => (s, [])
  | .fill oid side price qty =>
    let s1 :=
      match dictGet oid s.order_send_times with
      | some t0 =>
        { s with
            fill_latencies := s.fill_latencies ++ [(tRecv - t0) * 1000],
            order_send_times := dictRemove oid s.order_send_times }
      | none => s
    let s2 :=
      if side = "BUY" then
        { s1 with inventory := s1.inventory + qty, cash_flow := s1.cash_flow - qty * price }
      else
        { s1 with inventory := s1.inventory - qty, cash_flow := s1.cash_flow + qty * price }
    let s3 := { s2 with pnl := s2.cash_flow + s2.inventory * s2.last_mid }
    (s3, [.fillPrint side qty price s3.inventory s3.pnl])

/-- The delivered HTTP registration response: status code and the `token` /
`run_id` fields of the JSON body (`none` when absent). -/
structure RegResponse where
  status : Nat
  token : Option String
  run_id : Option String
  deriving DecidableEq

/-- Python truthiness failure of an optional string field: `None` (absent
key) and the empty string are falsy. -/
def pyFalsy : Option String → Bool
  | none => true
  | some s => s == ""

/-- `TradingBot.register` (lines 81-113) on a delivered response: returns
(success, stored token, stored run_id).  The network-exception branch
(line 111) is outside the model. -/
def register (r : RegResponse) : Bool × Option String × Option String :=
  if r.status ≠ 200 then (false, none, none)
  else if pyFalsy r.token || pyFalsy r.run_id then (false, r.token, r.run_id)
  else (true, r.token, r.run_id)

/-- `TradingBot.run` (lines 335-342) calls `connect` — which opens both
channels — only when `register` returned `True`. -/
def channelsOpened (r : RegResponse) : Bool := (register r).1

end TradingBot

/-! ### ManualTrader (`src/manual_trader.py`) -/

namespace ManualTrader

/-- One order-book level as read on lines 115-116 / 124-125, with the
`get` defaults (`price` 0.0, `qty` 0) applied. -/
structure Level where
  price : ℚ
  qty : Int
  deriving DecidableEq

/-- Fields `on_market_message` reads from a decoded market message:
`type` and `step` are `data.get(...)` (absent ⇒ `none`); `bids`, `asks`
default to `[]` and `last_trade` to 0.0. -/
structure SnapshotMsg where
  type : Option String
  bids : List Level
  asks : List Level
  last_trade : ℚ
  step : Option Int
  deriving DecidableEq

/-- A delivery on the market channel: decoded payload or one on which
`json.loads` raises. -/
inductive MTMarketMsg where
  | malformed
  | parsed (d : SnapshotMsg)
  deriving DecidableEq

/-- The structural fingerprint string `json.dumps({...})` of lines 83-88:
top-10 levels of both sides, last trade, step.  Two such JSON strings are
equal exactly when the underlying values are, which this tuple models. -/
def fingerprint (d : SnapshotMsg) : List Level × List Level × ℚ × Option Int :=
  (d.bids.take 10, d.asks.take 10, d.last_trade, d.step)

/-- Mutable state of a `ManualTrader` instance (`__init__`, lines 23-40),
protocol-relevant fields. -/
structure MTState where
  inventory : Int
  pnl : ℚ
  last_snapshot_hash : Option (List Level × List Level × ℚ × Option Int)
  deriving DecidableEq

/-- State right after `__init__`. -/
def initMTState : MTState := { inventory := 0, pnl := 0, last_snapshot_hash := none }

/-- Console output of the two `ManualTrader` handlers. -/
inductive MTEvent where
  | connectedPrint
  | display (bids asks : List Level) (last : ℚ) (inventory : Int) (pnl : ℚ)
  | fillPrint (side : Option String) (qty : Int) (price : ℚ)
  | errorPrint (message : Option String)
  deriving DecidableEq

/-- Recognizer for a `display_book` dispatch. -/
def MTEvent.isDisplay : MTEvent → Bool
  | .display _ _ _ _ _ => true
  | _ => false

/-- Number of `display_book` dispatches in a handler's output. -/
def displayCount (l : List MTEvent) : Nat := (l.filter MTEvent.isDisplay).length

/-- `ManualTrader.on_market_message` (lines 68-97).  There is no `try`
around the body, so a payload on which `json.loads` raises escapes the
handler: the result is `Except.error`.  The handler performs no sends on
the order channel; the (always empty) third component records that. -/
def on_market_message (s : MTState) (m : MTMarketMsg) :
    Except String (MTState × List MTEvent × List WireMsg) :=
  match m with
  | .malformed => .error "json.decoder.JSONDecodeError"
  | .parsed d =>
    .ok <|
      if d.type = some "CONNECTED" then (s, [.connectedPrint], [])
      else if d.type = some "MARKET_DATA" ∨ d.type = some "SNAPSHOT" then
        let fp := fingerprint d
        if some fp ≠ s.last_snapshot_hash then
          ({ s with last_snapshot_hash := some fp },
            [.display d.bids d.asks d.last_trade s.inventory s.pnl], [])
        else (s, [], [])
      else (s, [], [])

/-- A delivery on the order channel after the `data.get("type")` dispatch;
`side` is `data.get("side")` (absent ⇒ `none`). -/
inductive MTOrderMsg where
  | malformed
  | fill (side : Option String) (price : ℚ) (qty : Int)
  | error (message : Option String)
  | other (type : Option String)
  deriving DecidableEq

/-- `ManualTrader.on_order_message` (lines 136-159); no `try` either. -/
def on_order_message (s : MTState) (m : MTOrderMsg) :
    Except String (MTState × List MTEvent) :=
  match m with
  | .malformed => .error "json.decoder.JSONDecodeError"
  | .fill side price qty =>
    .ok <|
      if side = some "BUY" then
        ({ s with inventory := s.inventory + qty, pnl := s.pnl - qty * price },
          [.fillPrint side qty price])
      else
        ({ s with inventory := s.inventory - qty, pnl := s.pnl + qty * price },
          [.fillPrint side qty price])
  | .error msg => .ok (s, [.errorPrint msg])
  | .other _ => .ok (s, [])

/-- `ManualTrader.register` (lines 42-66) on a delivered response: only the
status code is checked; `token` / `run_id` are stored unconditionally. -/
def register (r : TradingBot.RegResponse) : Bool × Option String × Option String :=
  if r.status ≠ 200 then (false, none, none)
  else (true, r.token, r.run_id)

/-- `ManualTrader.start` (lines 169-171) opens the two channels only when
`register` returned `True`. -/
def channelsOpened (r : TradingBot.RegResponse) : Bool := (register r).1

/-- Order sent for a parsed `buy`/`sell` command (`start`, lines 226-239):
the order id is derived from the millisecond wall clock `tms` only. -/
def send_manual_order (tms : Nat) (side : String) (price : ℚ) (qty : Int) : WireMsg :=
  .manualOrder (manualOrderId tms) "SYM" side price qty

/-- DONE sent for a `step`/`next`/`done` command (lines 217-220). -/
def send_step : WireMsg := .done

/-- Ids of the orders of a session whose `buy`/`sell` commands execute at
the given millisecond timestamps. -/
def sessionOrderIds (ts : List Nat) : List String := ts.map manualOrderId

/-- Events of a market-handler result (`[]` when the handler raised). -/
def evsOf : Except String (MTState × List MTEvent × List WireMsg) → List MTEvent
  | .ok r => r.2.1
  | .error _ => []

/-- Order-channel sends of a market-handler result. -/
def sentMsgs : Except String (MTState × List MTEvent × List WireMsg) → List WireMsg
  | .ok r => r.2.2
  | .error _ => []

/-- State after a market delivery (unchanged when the handler raised). -/
def stateAfter (s : MTState) (m : MTMarketMsg) : MTState :=
  match on_market_message s m with
  | .ok r => r.1
  | .error _ => s

end ManualTrader

namespace TradingBot

/-- One FILL record as delivered on the order channel. -/
structure FillRec where
  t : ℚ
  order_id : String
  side : String
  price : ℚ
  qty : Int
  deriving DecidableEq

/-- The order-channel message of a fill record. -/
def fillMsg (f : FillRec) : OrderMsg := .fill f.order_id f.side f.price f.qty

/-- Fold `_on_order_response` over a sequence of FILL deliveries. -/
def runFills (s : BotState) (fs : List FillRec) : BotState :=
  fs.foldl (fun s f => (on_order_response s f.t (fillMsg f)).1) s

/-- Signed filled quantity (spec wording: BUY positive, SELL negative). -/
def signedQty (f : FillRec) : Int := if f.side = "BUY" then f.qty else -f.qty

/-- Signed cash flow of one fill (spec wording). -/
def signedCash (f : FillRec) : ℚ :=
  if f.side = "BUY" then -(f.qty * f.price) else f.qty * f.price

/-- Fold `_send_order` over a session's sends: each entry gives the market
step at which the send happens (written to `current_step` by
`_on_market_data` before `_send_order` runs), the intent and the send time.
Returns the final state and the generated order ids. -/
def runSends (sid : String) : BotState → List (Nat × OrderIntent × ℚ) → BotState × List String
  | s, [] => (s, [])
  | s, e :: rest =>
    let p := send_order sid { s with current_step := e.1 } e.2.1 e.2.2
    let q := runSends sid p.1 rest
    (q.1, p.2.orderIdOf :: q.2)

end TradingBot

/-! ### Properties of the decimal rendering and of order-id generation -/

theorem decDigitsAux_congr :
    ∀ (f f' n : Nat), n < f → n < f' → decDigitsAux f n = decDigitsAux f' n := by
  intro f
  induction f with
  | zero => intro f' n h _; omega
  | succ f ih =>
    intro f' n h h'
    cases f' with
    | zero => omega
    | succ f' =>
      simp only [decDigitsAux]
      by_cases h10 : n < 10
      · simp [h10]
      · have hdiv : n / 10 < n := Nat.div_lt_self (by omega) (by omega)
        simp only [if_neg h10]
        rw [ih f' (n / 10) (by omega) (by omega)]

theorem decDigits_eq (n : Nat) :
    decDigits n = if n < 10 then [n] else decDigits (n / 10) ++ [n % 10] := by
  have h1 : decDigits n = if n < 10 then [n] else decDigitsAux n (n / 10) ++ [n % 10] := by
    simp only [decDigits]
    conv_lhs => rw [decDigitsAux]
  rw [h1]
  by_cases h : n < 10
  · simp [h]
  · have hdiv : n / 10 < n := Nat.div_lt_self (by omega) (by omega)
    rw [if_neg h, if_neg h,
      decDigitsAux_congr n (n / 10 + 1) (n / 10) (by omega) (by omega)]
    rfl

theorem decDigits_lt_ten (n : Nat) : ∀ d ∈ decDigits n, d < 10 := by
  induction n using Nat.strong_induction_on with
  | _ n ih =>
    rw [decDigits_eq]
    by_cases h : n < 10
    · simp [h]
    · simp only [if_neg h, List.mem_append, List.mem_singleton]
      rintro d (hd | rfl)
      · exact ih (n / 10) (Nat.div_lt_self (by omega) (by omega)) d hd
      · exact Nat.mod_lt _ (by omega)

theorem foldl_digits_append (a : Nat) (l : List Nat) (d : Nat) :
    List.foldl (fun a d => 10 * a + d) a (l ++ [d]) =
      10 * List.foldl (fun a d => 10 * a + d) a l + d := by
  rw [List.foldl_append]
  rfl

theorem fromDigits_decDigits (n : Nat) : fromDigits (decDigits n) = n := by
  induction n using Nat.strong_induction_on with
  | _ n ih =>
    rw [decDigits_eq]
    by_cases h : n < 10
    · simp only [if_pos h, fromDigits, List.foldl_cons, List.foldl_nil]
      omega
    · rw [if_neg h]
      have := ih (n / 10) (Nat.div_lt_self (by omega) (by omega))
      simp only [fromDigits] at this ⊢
      rw [foldl_digits_append, this]
      omega

theorem digitChar_ne_underscore {d : Nat} (h : d < 10) : digitChar d ≠ '_' := by
  interval_cases d <;> decide

theorem digitChar_inj {d e : Nat} (hd : d < 10) (he : e < 10) :
    digitChar d = digitChar e → d = e := by
  interval_cases d <;> interval_cases e <;> decide

theorem map_digitChar_inj :
    ∀ (l1 l2 : List Nat), (∀ d ∈ l1, d < 10) → (∀ d ∈ l2, d < 10) →
      l1.map digitChar = l2.map digitChar → l1 = l2 := by
  intro l1
  induction l1 with
  | nil =>
    intro l2 _ _ h
    cases l2 with
    | nil => rfl
    | cons b bs => simp at h
  | cons a as ih =>
    intro l2 h1 h2 h
    cases l2 with
    | nil => simp at h
    | cons b bs =>
      simp only [List.map_cons, List.cons.injEq] at h
      have hab : a = b := digitChar_inj (h1 a (by simp)) (h2 b (by simp)) h.1
      have htl : as = bs :=
        ih bs (fun d hd => h1 d (by simp [hd])) (fun d hd => h2 d (by simp [hd])) h.2
      rw [hab, htl]

theorem pyStr_data (n : Nat) : (pyStr n).data = (decDigits n).map digitChar := rfl

theorem pyStr_no_underscore (n : Nat) : '_' ∉ (pyStr n).data := by
  intro hmem
  rw [pyStr_data] at hmem
  obtain ⟨d, hd, he⟩ := List.mem_map.1 hmem
  exact digitChar_ne_underscore (decDigits_lt_ten n d hd) he

theorem pyStr_data_inj {m n : Nat} (h : (pyStr m).data = (pyStr n).data) : m = n := by
  rw [pyStr_data, pyStr_data] at h
  have hd := map_digitChar_inj _ _ (decDigits_lt_ten m) (decDigits_lt_ten n) h
  have := congrArg fromDigits hd
  rwa [fromDigits_decDigits, fromDigits_decDigits] at this

theorem pyStr_inj : Function.Injective pyStr := by
  intro m n h
  exact pyStr_data_inj (congrArg String.data h)

/-! ### Splitting a character list at a separator absent from the flanks -/

theorem append_cons_inj {α : Type} (c : α) :
    ∀ (a a' b b' : List α), c ∉ a → c ∉ a' →
      a ++ c :: b = a' ++ c :: b' → a = a' ∧ b = b' := by
  intro a
  induction a with
  | nil =>
    intro a' b b' _ ha' h
    cases a' with
    | nil => simpa using h
    | cons x xs =>
      simp only [List.nil_append, List.cons_append, List.cons.injEq] at h
      have : c ∈ x :: xs := by
        rw [h.1]; exact List.mem_cons_self x xs
      exact absurd this ha'
  | cons y ys ih =>
    intro a' b b' ha ha' h
    cases a' with
    | nil =>
      simp only [List.cons_append, List.nil_append, List.cons.injEq] at h
      have : c ∈ y :: ys := by
        rw [← h.1]; exact List.mem_cons_self y ys
      exact absurd this ha
    | cons x xs =>
      simp only [List.cons_append, List.cons.injEq] at h
      have hrec := ih xs b b'
        (fun hm => ha (List.mem_cons_of_mem _ hm))
        (fun hm => ha' (List.mem_cons_of_mem _ hm)) h.2
      exact ⟨by rw [h.1, hrec.1], hrec.2⟩

theorem append_cons_inj_last {α : Type} (c : α) (a a' b b' : List α)
    (hb : c ∉ b) (hb' : c ∉ b') (h : a ++ c :: b = a' ++ c :: b') :
    a = a' ∧ b = b' := by
  have h' := congrArg List.reverse h
  simp only [List.reverse_append, List.reverse_cons, List.append_assoc,
    List.singleton_append] at h'
  have hsplit := append_cons_inj c b.reverse b'.reverse a.reverse a'.reverse
    (by simpa using hb) (by simpa using hb') h'
  constructor
  · have := congrArg List.reverse hsplit.2
    simpa using this
  · have := congrArg List.reverse hsplit.1
    simpa using this

theorem mkOrderId_inj_seq {sid : String} {s1 s2 q1 q2 : Nat}
    (h : mkOrderId sid s1 q1 = mkOrderId sid s2 q2) : q1 = q2 := by
  have hd := congrArg String.data h
  simp only [mkOrderId, String.data_append, List.append_assoc,
    List.singleton_append] at hd
  have h1 := List.append_cancel_left hd
  have h2 := List.append_cancel_left h1
  injection h2 with hhead h3
  have hsplit := append_cons_inj_last '_' (pyStr s1).data (pyStr s2).data
    (pyStr q1).data (pyStr q2).data (pyStr_no_underscore q1) (pyStr_no_underscore q2) h3
  exact pyStr_data_inj hsplit.2

theorem manualOrderId_inj : Function.Injective manualOrderId := by
  intro m n h
  have hd := congrArg String.data h
  simp only [manualOrderId, String.data_append] at hd
  exact pyStr_data_inj (List.append_cancel_left hd)


/-! ### Structural lemmas about `_on_order_response` on FILL deliveries -/

namespace TradingBot

theorem fill_result_inventory (s : BotState) (t : ℚ) (oid side : String) (price : ℚ) (qty : Int) :
    (on_order_response s t (.fill oid side price qty)).1.inventory =
      s.inventory + (if side = "BUY" then qty else -qty) := by
  simp only [on_order_response]
  cases hd : dictGet oid s.order_send_times <;>
    by_cases hs : side = "BUY" <;>
      simp [hd, hs, sub_eq_add_neg]

theorem fill_result_cash (s : BotState) (t : ℚ) (oid side : String) (price : ℚ) (qty : Int) :
    (on_order_response s t (.fill oid side price qty)).1.cash_flow =
      s.cash_flow + (if side = "BUY" then -(qty * price) else qty * price) := by
  simp only [on_order_response]
  cases hd : dictGet oid s.order_send_times <;>
    by_cases hs : side = "BUY" <;>
      simp [hd, hs, sub_eq_add_neg]

theorem fill_result_last_mid (s : BotState) (t : ℚ) (oid side : String) (price : ℚ) (qty : Int) :
    (on_order_response s t (.fill oid side price qty)).1.last_mid = s.last_mid := by
  simp only [on_order_response]
  cases hd : dictGet oid s.order_send_times <;>
    by_cases hs : side = "BUY" <;>
      simp [hd, hs]

theorem fill_result_pnl (s : BotState) (t : ℚ) (oid side : String) (price : ℚ) (qty : Int) :
    (on_order_response s t (.fill oid side price qty)).1.pnl =
      (on_order_response s t (.fill oid side price qty)).1.cash_flow +
        (on_order_response s t (.fill oid side price qty)).1.inventory *
          (on_order_response s t (.fill oid side price qty)).1.last_mid := by
  simp only [on_order_response]

theorem fill_result_unmatched (s : BotState) (t : ℚ) (oid side : String) (price : ℚ) (qty : Int)
    (h : dictGet oid s.order_send_times = none) :
    (on_order_response s t (.fill oid side price qty)).1.order_send_times = s.order_send_times ∧
    (on_order_response s t (.fill oid side price qty)).1.fill_latencies = s.fill_latencies := by
  simp only [on_order_response]
  by_cases hs : side = "BUY" <;> simp [h, hs]

theorem fill_result_events (s : BotState) (t : ℚ) (oid side : String) (price : ℚ) (qty : Int) :
    ((on_order_response s t (.fill oid side price qty)).2.all fun e => ! e.isAnomaly) = true := by
  simp only [on_order_response]
  cases hd : dictGet oid s.order_send_times <;>
    by_cases hs : side = "BUY" <;>
      simp [hd, hs, OrderEvent.isAnomaly]

theorem runFills_cons (s : BotState) (f : FillRec) (fs : List FillRec) :
    runFills s (f :: fs) = runFills (on_order_response s f.t (fillMsg f)).1 fs := by
  simp [runFills]

theorem runFills_inventory :
    ∀ (fs : List FillRec) (s : BotState),
      (runFills s fs).inventory = s.inventory + (fs.map signedQty).sum := by
  intro fs
  induction fs with
  | nil => intro s; simp [runFills]
  | cons f fs ih =>
    intro s
    rw [runFills_cons, ih, List.map_cons, List.sum_cons]
    rw [fillMsg, fill_result_inventory]
    simp only [signedQty]
    omega

theorem runFills_cash :
    ∀ (fs : List FillRec) (s : BotState),
      (runFills s fs).cash_flow = s.cash_flow + (fs.map signedCash).sum := by
  intro fs
  induction fs with
  | nil => intro s; simp [runFills]
  | cons f fs ih =>
    intro s
    rw [runFills_cons, ih, List.map_cons, List.sum_cons]
    rw [fillMsg, fill_result_cash]
    simp only [signedCash]
    ring

end TradingBot

/-! ### Claim C1 -/

/-- C1: starting from inventory 0 and cash_flow 0, every sequence of FILL
events drives `inventory` to the signed sum of filled quantities (BUY
positive, SELL negative) and `cash_flow` to the signed sum of `qty*price`
(BUY negative, SELL positive); in particular the fills
[BUY 100@10.00, SELL 50@11.00] yield inventory 50 and cash_flow −450, and
with `last_mid` = 11.00 the mark-to-market P&L is 100.00. -/
theorem claim_C1 :
    (∀ fs : List TradingBot.FillRec,
      (TradingBot.runFills TradingBot.initBotState fs).inventory =
        (fs.map TradingBot.signedQty).sum ∧
      (TradingBot.runFills TradingBot.initBotState fs).cash_flow =
        (fs.map TradingBot.signedCash).sum) ∧
    (TradingBot.runFills { TradingBot.initBotState with last_mid := 11 }
        [⟨0, "O1", "BUY", 10, 100⟩, ⟨1, "O2", "SELL", 11, 50⟩]).inventory = 50 ∧
    (TradingBot.runFills { TradingBot.initBotState with last_mid := 11 }
        [⟨0, "O1", "BUY", 10, 100⟩, ⟨1, "O2", "SELL", 11, 50⟩]).cash_flow = -450 ∧
    (TradingBot.runFills { TradingBot.initBotState with last_mid := 11 }
        [⟨0, "O1", "BUY", 10, 100⟩, ⟨1, "O2", "SELL", 11, 50⟩]).pnl = 100 := by
  refine ⟨fun fs => ⟨?_, ?_⟩, ?_, ?_, ?_⟩
  · rw [TradingBot.runFills_inventory]; simp [TradingBot.initBotState]
  · rw [TradingBot.runFills_cash]; simp [TradingBot.initBotState]
  · norm_num +decide [TradingBot.runFills, TradingBot.on_order_response,
      TradingBot.dictGet, TradingBot.initBotState, TradingBot.fillMsg]
  · norm_num +decide [TradingBot.runFills, TradingBot.on_order_response,
      TradingBot.dictGet, TradingBot.initBotState, TradingBot.fillMsg]
  · norm_num +decide [TradingBot.runFills, TradingBot.on_order_response,
      TradingBot.dictGet, TradingBot.initBotState, TradingBot.fillMsg]

/-! ### Claim C2 -/

/-- C2: immediately after every FILL is applied, the ledger satisfies
`pnl = cash_flow + inventory * last_mid`, where `last_mid` is the most
recent mid price known at fill time (the order handler leaves it
unchanged). -/
theorem claim_C2 (s : TradingBot.BotState) (t : ℚ) (oid side : String) (price : ℚ) (qty : Int) :
    (TradingBot.on_order_response s t (.fill oid side price qty)).1.pnl =
      (TradingBot.on_order_response s t (.fill oid side price qty)).1.cash_flow +
        (TradingBot.on_order_response s t (.fill oid side price qty)).1.inventory *
          (TradingBot.on_order_response s t (.fill oid side price qty)).1.last_mid ∧
    (TradingBot.on_order_response s t (.fill oid side price qty)).1.last_mid = s.last_mid :=
  ⟨TradingBot.fill_result_pnl s t oid side price qty,
   TradingBot.fill_result_last_mid s t oid side price qty⟩

/-! ### Claim C3 -/

/-- C3 counterexample: a FILL for an order id absent from the pending-send
table is processed without emitting any anomaly log entry — the handler's
entire output is the ordinary fill print, so the event is not "logged as an
anomaly" as the claim states. -/
theorem claim_C3_counterexample :
    (TradingBot.on_order_response
        { TradingBot.initBotState with
            order_send_times := [("ORD_alice_0_0", 5)], last_mid := 11 }
        7 (.fill "ghost" "BUY" 10 100)).2 =
      [.fillPrint "BUY" 100 10 100 100] ∧
    ((TradingBot.on_order_response
        { TradingBot.initBotState with
            order_send_times := [("ORD_alice_0_0", 5)], last_mid := 11 }
        7 (.fill "ghost" "BUY" 10 100)).2.all fun e => ! e.isAnomaly) = true := by
  constructor
  · norm_num +decide [TradingBot.on_order_response, TradingBot.dictGet,
      TradingBot.initBotState]
  · norm_num +decide [TradingBot.on_order_response, TradingBot.dictGet,
      TradingBot.initBotState, TradingBot.OrderEvent.isAnomaly]

/-- C3 (amended): a FILL whose order id has no entry in the pending-send
table leaves the pending table and the fill-latency samples unchanged and
raises no error, while inventory and cash_flow are still updated from the
fill payload; the unmatched id is silently ignored — no anomaly is logged
(the handler's output never contains an anomaly entry). -/
theorem claim_C3 (s : TradingBot.BotState) (t : ℚ) (oid side : String) (price : ℚ) (qty : Int)
    (h : TradingBot.dictGet oid s.order_send_times = none) :
    (TradingBot.on_order_response s t (.fill oid side price qty)).1.order_send_times =
      s.order_send_times ∧
    (TradingBot.on_order_response s t (.fill oid side price qty)).1.fill_latencies =
      s.fill_latencies ∧
    (TradingBot.on_order_response s t (.fill oid side price qty)).1.inventory =
      s.inventory + (if side = "BUY" then qty else -qty) ∧
    (TradingBot.on_order_response s t (.fill oid side price qty)).1.cash_flow =
      s.cash_flow + (if side = "BUY" then -(qty * price) else qty * price) ∧
    ((TradingBot.on_order_response s t (.fill oid side price qty)).2.all
      fun e => ! e.isAnomaly) = true :=
  ⟨(TradingBot.fill_result_unmatched s t oid side price qty h).1,
   (TradingBot.fill_result_unmatched s t oid side price qty h).2,
   TradingBot.fill_result_inventory s t oid side price qty,
   TradingBot.fill_result_cash s t oid side price qty,
   TradingBot.fill_result_events s t oid side price qty⟩

/-- C3 witness: the amended theorem applied to a concrete unmatched fill. -/
theorem claim_C3_witness :
    (TradingBot.on_order_response TradingBot.initBotState 7
        (.fill "ghost" "SELL" 10 100)).1.order_send_times =
      TradingBot.initBotState.order_send_times ∧
    (TradingBot.on_order_response TradingBot.initBotState 7
        (.fill "ghost" "SELL" 10 100)).1.fill_latencies =
      TradingBot.initBotState.fill_latencies :=
  ⟨(claim_C3 TradingBot.initBotState 7 "ghost" "SELL" 10 100 rfl).1,
   (claim_C3 TradingBot.initBotState 7 "ghost" "SELL" 10 100 rfl).2.1⟩

/-! ### Claim C10 -/

/-- C10: any FILL whose side is not exactly `"BUY"` — `"SELL"`, the empty
string (the bot's `get` default), or an absent field (`None` in the manual
client) — is applied as a sell: inventory decreases by `qty`, cash flow
increases by `qty*price`; neither client has a branch rejecting an
unrecognized side. -/
theorem claim_C10 :
    (∀ (s : TradingBot.BotState) (t : ℚ) (oid side : String) (price : ℚ) (qty : Int),
      side ≠ "BUY" →
      (TradingBot.on_order_response s t (.fill oid side price qty)).1.inventory =
        s.inventory - qty ∧
      (TradingBot.on_order_response s t (.fill oid side price qty)).1.cash_flow =
        s.cash_flow + qty * price) ∧
    (∀ (s : ManualTrader.MTState) (side : Option String) (price : ℚ) (qty : Int),
      side ≠ some "BUY" →
      ManualTrader.on_order_message s (.fill side price qty) =
        .ok ({ s with inventory := s.inventory - qty, pnl := s.pnl + qty * price },
          [.fillPrint side qty price])) := by
  constructor
  · intro s t oid side price qty hside
    constructor
    · rw [TradingBot.fill_result_inventory, if_neg hside]
      omega
    · rw [TradingBot.fill_result_cash, if_neg hside]
  · intro s side price qty hside
    simp [ManualTrader.on_order_message, hside]

/-- C10 witness: a fill with side `""` (bot) and side `None` (manual) is
booked as a sell. -/
theorem claim_C10_witness :
    (TradingBot.on_order_response TradingBot.initBotState 0
        (.fill "X" "" 10 7)).1.inventory = TradingBot.initBotState.inventory - 7 ∧
    ManualTrader.on_order_message ManualTrader.initMTState (.fill none 10 7) =
      .ok ({ ManualTrader.initMTState with
              inventory := ManualTrader.initMTState.inventory - 7,
              pnl := ManualTrader.initMTState.pnl + (7 : ℤ) * 10 },
        [.fillPrint none 7 10]) :=
  ⟨(claim_C10.1 TradingBot.initBotState 0 "X" "" 10 7 (by decide)).1,
   claim_C10.2 ManualTrader.initMTState none 10 7 (by decide)⟩

/-! ### Structural lemmas about `_on_market_data` and `on_market_message` -/

namespace TradingBot

theorem on_market_data_parsed_fields (sid : String) (sock : Bool) (s : BotState)
    (tR tS tD : ℚ) (d : MarketData) (hc : d.type ≠ some "CONNECTED") :
    ((on_market_data sid sock s tR tS tD (.parsed d)).state.step_latencies =
      match s.last_done_time with
      | some t0 => s.step_latencies ++ [(tR - t0) * 1000]
      | none => s.step_latencies) ∧
    (on_market_data sid sock s tR tS tD (.parsed d)).state.last_done_time = some tD := by
  simp only [on_market_data]
  rw [if_neg hc]
  cases hld : s.last_done_time <;> (constructor <;> (split <;> simp [send_order, send_done]))

theorem on_market_data_msgs_shape (sid : String) (sock : Bool) (s : BotState)
    (tR tS tD : ℚ) (d : MarketData) (hc : d.type ≠ some "CONNECTED") :
    (on_market_data sid sock s tR tS tD (.parsed d)).msgs = [.done] ∨
    ∃ oid sd pr q, (on_market_data sid sock s tR tS tD (.parsed d)).msgs =
      [.botOrder oid sd pr q, .done] := by
  simp only [on_market_data]
  rw [if_neg hc]
  split
  · right
    exact ⟨_, _, _, _, rfl⟩
  · left
    rfl

end TradingBot

namespace ManualTrader

theorem on_market_message_book (s : MTState) (d : SnapshotMsg)
    (hb : d.type = some "MARKET_DATA" ∨ d.type = some "SNAPSHOT") :
    on_market_message s (.parsed d) =
      if some (fingerprint d) ≠ s.last_snapshot_hash then
        .ok ({ s with last_snapshot_hash := some (fingerprint d) },
          [.display d.bids d.asks d.last_trade s.inventory s.pnl], [])
      else .ok (s, [], []) := by
  have hnc : d.type ≠ some "CONNECTED" := by
    rcases hb with h | h <;> simp [h]
  simp only [on_market_message]
  rw [if_neg hnc, if_pos hb]
  split_ifs <;> rfl

theorem stateAfter_book (s : MTState) (d : SnapshotMsg)
    (hb : d.type = some "MARKET_DATA" ∨ d.type = some "SNAPSHOT") :
    (stateAfter s (.parsed d)).last_snapshot_hash = some (fingerprint d) := by
  simp only [stateAfter]
  rw [on_market_message_book s d hb]
  split_ifs with h
  · rfl
  · push_neg at h
    simp [← h]

theorem displayCount_book (s : MTState) (d : SnapshotMsg)
    (hb : d.type = some "MARKET_DATA" ∨ d.type = some "SNAPSHOT") :
    displayCount (evsOf (on_market_message s (.parsed d))) =
      if some (fingerprint d) ≠ s.last_snapshot_hash then 1 else 0 := by
  rw [on_market_message_book s d hb]
  split_ifs <;> simp [evsOf, displayCount, MTEvent.isDisplay]

theorem sentMsgs_empty (s : MTState) (m : MTMarketMsg) :
    sentMsgs (on_market_message s m) = [] := by
  cases m with
  | malformed => rfl
  | parsed d =>
    simp only [on_market_message, sentMsgs]
    split_ifs <;> rfl

end ManualTrader

/-! ### Claim C9 -/

/-- C9 counterexample: a malformed payload delivered to `ManualTrader`'s
market-data listener is not caught — `json.loads` raises out of the
handler instead of being reported as a non-fatal decode error with the
tick dropped. -/
theorem claim_C9_counterexample :
    ManualTrader.on_market_message ManualTrader.initMTState .malformed =
      .error "json.decoder.JSONDecodeError" := rfl

/-- C9 (amended): `TradingBot`'s market-data listener catches a malformed
payload — the tick is dropped (state unchanged), a non-fatal decode error
is reported, and any subsequent message is processed exactly as if the
malformed one had never arrived; `ManualTrader`'s market listener, in
contrast, has no handler and the decode exception escapes. -/
theorem claim_C9 :
    (∀ (sid : String) (sock : Bool) (s : TradingBot.BotState) (tR tS tD : ℚ),
      TradingBot.on_market_data sid sock s tR tS tD .malformed =
        ⟨s, [], [.decodeError]⟩) ∧
    (∀ (sid : String) (sock : Bool) (s : TradingBot.BotState)
        (tR tS tD tR' tS' tD' : ℚ) (m : TradingBot.BotMarketMsg),
      TradingBot.on_market_data sid sock
          (TradingBot.on_market_data sid sock s tR tS tD .malformed).state tR' tS' tD' m =
        TradingBot.on_market_data sid sock s tR' tS' tD' m) ∧
    (∀ s : ManualTrader.MTState,
      ManualTrader.on_market_message s .malformed =
        .error "json.decoder.JSONDecodeError") :=
  ⟨fun _ _ _ _ _ _ => rfl, fun _ _ _ _ _ _ _ _ _ _ => rfl, fun _ => rfl⟩

/-! ### Claim C4 -/

/-- C4 counterexample: `ManualTrader` processes (and here displays) a market
tick without sending any message on the order channel — in particular zero
DONE signals, not exactly one; step advance happens only on an explicit
user command. -/
theorem claim_C4_counterexample :
    doneCount (ManualTrader.sentMsgs (ManualTrader.on_market_message
      ManualTrader.initMTState
      (.parsed ⟨some "MARKET_DATA", [⟨10, 5⟩], [⟨11, 7⟩], 10, some 1⟩))) = 0 ∧
    ManualTrader.evsOf (ManualTrader.on_market_message
      ManualTrader.initMTState
      (.parsed ⟨some "MARKET_DATA", [⟨10, 5⟩], [⟨11, 7⟩], 10, some 1⟩)) =
      [.display [⟨10, 5⟩] [⟨11, 7⟩] 10 0 0] := by
  constructor
  · rfl
  · norm_num +decide [ManualTrader.on_market_message, ManualTrader.evsOf,
      ManualTrader.initMTState, ManualTrader.fingerprint]

/-- C4 (amended): in `TradingBot`, every processed market tick (parsed,
non-CONNECTED) results in exactly one DONE on the order channel, sent after
any order dispatched for that tick (DONE is the last message); in
`ManualTrader`, tick processing sends nothing — DONE is only sent for an
explicit user `step` command. -/
theorem claim_C4 :
    (∀ (sid : String) (sock : Bool) (s : TradingBot.BotState) (tR tS tD : ℚ)
        (d : TradingBot.MarketData), d.type ≠ some "CONNECTED" →
      doneCount (TradingBot.on_market_data sid sock s tR tS tD (.parsed d)).msgs = 1 ∧
      (TradingBot.on_market_data sid sock s tR tS tD (.parsed d)).msgs.getLast? =
        some .done) ∧
    (∀ (s : ManualTrader.MTState) (m : ManualTrader.MTMarketMsg),
      ManualTrader.sentMsgs (ManualTrader.on_market_message s m) = []) ∧
    ManualTrader.send_step = WireMsg.done := by
  refine ⟨fun sid sock s tR tS tD d hc => ?_, ManualTrader.sentMsgs_empty, rfl⟩
  rcases TradingBot.on_market_data_msgs_shape sid sock s tR tS tD d hc with h | ⟨oid, sd, pr, q, h⟩ <;>
    rw [h] <;> constructor <;> simp [doneCount, WireMsg.isDone]

/-- C4 witness: the amended theorem applied to a concrete processed tick. -/
theorem claim_C4_witness :
    doneCount (TradingBot.on_market_data "a" false TradingBot.initBotState 3 0 9
      (.parsed ⟨some "MARKET_DATA", 0, 1, 2⟩)).msgs = 1 ∧
    (TradingBot.on_market_data "a" false TradingBot.initBotState 3 0 9
      (.parsed ⟨some "MARKET_DATA", 0, 1, 2⟩)).msgs.getLast? = some .done :=
  claim_C4.1 "a" false TradingBot.initBotState 3 0 9 ⟨some "MARKET_DATA", 0, 1, 2⟩ (by decide)

/-! ### Claim C6 -/

/-- C6: when a market tick arrives at `tR` and a DONE was previously sent at
`t0` (recorded in `last_done_time`), the handler appends exactly the sample
`(tR − t0) * 1000` (the delta expressed in milliseconds) to the STEP
latency list; when no DONE has been sent yet (`last_done_time = none`, the
state right after connection), no sample is recorded; and each processed
tick re-arms the clock with the DONE send time. -/
theorem claim_C6 :
    (∀ (sid : String) (sock : Bool) (s : TradingBot.BotState) (tR tS tD t0 : ℚ)
        (d : TradingBot.MarketData), d.type ≠ some "CONNECTED" →
      s.last_done_time = some t0 →
      (TradingBot.on_market_data sid sock s tR tS tD (.parsed d)).state.step_latencies =
        s.step_latencies ++ [(tR - t0) * 1000]) ∧
    (∀ (sid : String) (sock : Bool) (s : TradingBot.BotState) (tR tS tD : ℚ)
        (d : TradingBot.MarketData), d.type ≠ some "CONNECTED" →
      s.last_done_time = none →
      (TradingBot.on_market_data sid sock s tR tS tD (.parsed d)).state.step_latencies =
        s.step_latencies) ∧
    TradingBot.initBotState.last_done_time = none ∧
    (∀ (sid : String) (sock : Bool) (s : TradingBot.BotState) (tR tS tD : ℚ)
        (d : TradingBot.MarketData), d.type ≠ some "CONNECTED" →
      (TradingBot.on_market_data sid sock s tR tS tD (.parsed d)).state.last_done_time =
        some tD) := by
  refine ⟨fun sid sock s tR tS tD t0 d hc h0 => ?_,
    fun sid sock s tR tS tD d hc h0 => ?_, rfl,
    fun sid sock s tR tS tD d hc =>
      (TradingBot.on_market_data_parsed_fields sid sock s tR tS tD d hc).2⟩
  · have := (TradingBot.on_market_data_parsed_fields sid sock s tR tS tD d hc).1
    rw [h0] at this
    exact this
  · have := (TradingBot.on_market_data_parsed_fields sid sock s tR tS tD d hc).1
    rw [h0] at this
    exact this

/-- C6 witness: the theorem applied to concrete ticks, with and without a
previously recorded DONE time. -/
theorem claim_C6_witness :
    (TradingBot.on_market_data "a" false
        { TradingBot.initBotState with last_done_time := some 2 } 3 0 9
        (.parsed ⟨some "MARKET_DATA", 0, 1, 2⟩)).state.step_latencies =
      { TradingBot.initBotState with last_done_time := some 2 }.step_latencies ++
        [(3 - 2) * 1000] ∧
    (TradingBot.on_market_data "a" false TradingBot.initBotState 3 0 9
        (.parsed ⟨some "MARKET_DATA", 0, 1, 2⟩)).state.step_latencies =
      TradingBot.initBotState.step_latencies :=
  ⟨claim_C6.1 "a" false { TradingBot.initBotState with last_done_time := some 2 }
      3 0 9 2 ⟨some "MARKET_DATA", 0, 1, 2⟩ (by decide) rfl,
   claim_C6.2.1 "a" false TradingBot.initBotState 3 0 9
      ⟨some "MARKET_DATA", 0, 1, 2⟩ (by decide) rfl⟩

/-! ### Claim C5 -/

/-- C5: in the deduplicating client, a second consecutive snapshot with the
same fingerprint (top-10 levels both sides, last trade, step) triggers no
second `display_book` dispatch, while a fingerprint change triggers exactly
one; a difference in any single level within the top 10 (either side)
changes the fingerprint; and the process-every-tick client handles every
parsed non-CONNECTED tick unconditionally (one DONE each), so both
behaviours exist, selected by which client is run. -/
theorem claim_C5 :
    (∀ (s : ManualTrader.MTState) (d1 d2 : ManualTrader.SnapshotMsg),
      (d1.type = some "MARKET_DATA" ∨ d1.type = some "SNAPSHOT") →
      (d2.type = some "MARKET_DATA" ∨ d2.type = some "SNAPSHOT") →
      (ManualTrader.fingerprint d2 = ManualTrader.fingerprint d1 →
        ManualTrader.displayCount (ManualTrader.evsOf (ManualTrader.on_market_message
          (ManualTrader.stateAfter s (.parsed d1)) (.parsed d2))) = 0) ∧
      (ManualTrader.fingerprint d2 ≠ ManualTrader.fingerprint d1 →
        ManualTrader.displayCount (ManualTrader.evsOf (ManualTrader.on_market_message
          (ManualTrader.stateAfter s (.parsed d1)) (.parsed d2))) = 1)) ∧
    (∀ (i : Nat), i < 10 → ∀ d1 d2 : ManualTrader.SnapshotMsg,
      d1.last_trade = d2.last_trade → d1.step = d2.step →
      d1.bids[i]? ≠ d2.bids[i]? →
      ManualTrader.fingerprint d1 ≠ ManualTrader.fingerprint d2) ∧
    (∀ (i : Nat), i < 10 → ∀ d1 d2 : ManualTrader.SnapshotMsg,
      d1.last_trade = d2.last_trade → d1.step = d2.step →
      d1.asks[i]? ≠ d2.asks[i]? →
      ManualTrader.fingerprint d1 ≠ ManualTrader.fingerprint d2) ∧
    (∀ (sid : String) (sock : Bool) (s : TradingBot.BotState) (tR tS tD : ℚ)
        (d : TradingBot.MarketData), d.type ≠ some "CONNECTED" →
      doneCount (TradingBot.on_market_data sid sock s tR tS tD (.parsed d)).msgs = 1) := by
  refine ⟨fun s d1 d2 hb1 hb2 => ⟨fun hfp => ?_, fun hfp => ?_⟩,
    fun i hi d1 d2 hlast hstep hbid hfp => ?_,
    fun i hi d1 d2 hlast hstep hask hfp => ?_,
    fun sid sock s tR tS tD d hc => ?_⟩
  · rw [ManualTrader.displayCount_book _ d2 hb2, ManualTrader.stateAfter_book s d1 hb1,
      if_neg (by simp [hfp])]
  · rw [ManualTrader.displayCount_book _ d2 hb2, ManualTrader.stateAfter_book s d1 hb1,
      if_pos (by simp [hfp])]
  · have htake : d1.bids.take 10 = d2.bids.take 10 := congrArg (fun p => p.1) hfp
    have : d1.bids[i]? = d2.bids[i]? := by
      have h2 := congrArg (fun l => l[i]?) htake
      simpa [List.getElem?_take, hi] using h2
    exact hbid this
  · have htake : d1.asks.take 10 = d2.asks.take 10 := congrArg (fun p => p.2.1) hfp
    have : d1.asks[i]? = d2.asks[i]? := by
      have h2 := congrArg (fun l => l[i]?) htake
      simpa [List.getElem?_take, hi] using h2
    exact hask this
  · rcases TradingBot.on_market_data_msgs_shape sid sock s tR tS tD d hc with
      h | ⟨oid, sd, pr, q, h⟩ <;>
        rw [h] <;> simp [doneCount, WireMsg.isDone]

/-- C5 witness: identical consecutive snapshots are not redisplayed; a
one-level change is displayed exactly once; the bot still emits its DONE on
a repeated tick. -/
theorem claim_C5_witness :
    ManualTrader.displayCount (ManualTrader.evsOf (ManualTrader.on_market_message
      (ManualTrader.stateAfter ManualTrader.initMTState
        (.parsed ⟨some "MARKET_DATA", [⟨10, 5⟩], [⟨11, 7⟩], 10, some 1⟩))
      (.parsed ⟨some "MARKET_DATA", [⟨10, 5⟩], [⟨11, 7⟩], 10, some 1⟩))) = 0 ∧
    ManualTrader.displayCount (ManualTrader.evsOf (ManualTrader.on_market_message
      (ManualTrader.stateAfter ManualTrader.initMTState
        (.parsed ⟨some "MARKET_DATA", [⟨10, 5⟩], [⟨11, 7⟩], 10, some 1⟩))
      (.parsed ⟨some "MARKET_DATA", [⟨9, 5⟩], [⟨11, 7⟩], 10, some 1⟩))) = 1 ∧
    doneCount (TradingBot.on_market_data "a" false TradingBot.initBotState 3 0 9
      (.parsed ⟨some "MARKET_DATA", 0, 1, 2⟩)).msgs = 1 :=
  ⟨(claim_C5.1 ManualTrader.initMTState
      ⟨some "MARKET_DATA", [⟨10, 5⟩], [⟨11, 7⟩], 10, some 1⟩
      ⟨some "MARKET_DATA", [⟨10, 5⟩], [⟨11, 7⟩], 10, some 1⟩
      (by decide) (by decide)).1 rfl,
   (claim_C5.1 ManualTrader.initMTState
      ⟨some "MARKET_DATA", [⟨10, 5⟩], [⟨11, 7⟩], 10, some 1⟩
      ⟨some "MARKET_DATA", [⟨9, 5⟩], [⟨11, 7⟩], 10, some 1⟩
      (by decide) (by decide)).2 (by norm_num [ManualTrader.fingerprint]),
   claim_C5.2.2.2 "a" false TradingBot.initBotState 3 0 9
      ⟨some "MARKET_DATA", 0, 1, 2⟩ (by decide)⟩

/-! ### Claim C7 -/

namespace TradingBot

theorem runSends_snd_cons (sid : String) (s : BotState) (e : Nat × OrderIntent × ℚ)
    (rest : List (Nat × OrderIntent × ℚ)) :
    (runSends sid s (e :: rest)).2 =
      mkOrderId sid e.1 s.orders_sent ::
        (runSends sid (send_order sid { s with current_step := e.1 } e.2.1 e.2.2).1 rest).2 :=
  rfl

theorem runSends_mem :
    ∀ (evs : List (Nat × OrderIntent × ℚ)) (sid : String) (s : BotState) (id : String),
      id ∈ (runSends sid s evs).2 →
      ∃ st q, s.orders_sent ≤ q ∧ id = mkOrderId sid st q := by
  intro evs
  induction evs with
  | nil => intro sid s id h; simp [runSends] at h
  | cons e rest ih =>
    intro sid s id h
    rw [runSends_snd_cons] at h
    rcases List.mem_cons.1 h with rfl | hmem
    · exact ⟨e.1, s.orders_sent, le_refl _, rfl⟩
    · obtain ⟨st, q, hq, hid⟩ := ih sid _ id hmem
      have hstep : (send_order sid { s with current_step := e.1 } e.2.1 e.2.2).1.orders_sent
          = s.orders_sent + 1 := rfl
      exact ⟨st, q, by omega, hid⟩

theorem runSends_nodup :
    ∀ (evs : List (Nat × OrderIntent × ℚ)) (sid : String) (s : BotState),
      ((runSends sid s evs).2).Nodup := by
  intro evs
  induction evs with
  | nil => intro sid s; simp [runSends]
  | cons e rest ih =>
    intro sid s
    rw [runSends_snd_cons, List.nodup_cons]
    refine ⟨fun hmem => ?_, ih sid _⟩
    obtain ⟨st, q, hq, hid⟩ := runSends_mem rest sid _ _ hmem
    have hstep : (send_order sid { s with current_step := e.1 } e.2.1 e.2.2).1.orders_sent
        = s.orders_sent + 1 := rfl
    have := mkOrderId_inj_seq hid
    omega

end TradingBot

/-- C7 counterexample: two `ManualTrader` orders sent within the same
millisecond receive the same `order_id`, so the session's order ids are not
pairwise distinct (and they are not generated from
participant+step+sequence). -/
theorem claim_C7_counterexample :
    ¬ (ManualTrader.sessionOrderIds [1737000000000, 1737000000000]).Nodup := by
  decide

/-- C7 (amended): `TradingBot`'s order ids (participant + current step +
running order count) are pairwise distinct across any session, whatever
steps the sends happen at; `ManualTrader`'s ids are derived from the
millisecond wall clock only, and are pairwise distinct exactly when the
send timestamps are. -/
theorem claim_C7 :
    (∀ (sid : String) (s : TradingBot.BotState)
        (evs : List (Nat × TradingBot.OrderIntent × ℚ)),
      ((TradingBot.runSends sid s evs).2).Nodup) ∧
    (∀ ts : List Nat, (ManualTrader.sessionOrderIds ts).Nodup ↔ ts.Nodup) := by
  constructor
  · intro sid s evs
    exact TradingBot.runSends_nodup evs sid s
  · intro ts
    simp only [ManualTrader.sessionOrderIds]
    exact ⟨List.Nodup.of_map _, List.Nodup.map manualOrderId_inj⟩

/-! ### Claim C8 -/

/-- C8 counterexample: a 200 response whose body lacks both `token` and
`run_id` still makes `ManualTrader.register` report success, and the
channels are then opened — the missing-token/run_id check the claim
describes does not exist in this client. -/
theorem claim_C8_counterexample :
    ManualTrader.register ⟨200, none, none⟩ = (true, none, none) ∧
    ManualTrader.channelsOpened ⟨200, none, none⟩ = true :=
  ⟨rfl, rfl⟩

/-- C8 (amended): `TradingBot.register` fails exactly on a non-200 status or
a missing/empty `token` or `run_id`, channels are opened iff it succeeded,
and on success the stored session credentials are the (non-falsy) response
fields; `ManualTrader.register` checks only the status code — token and
run_id are stored unchecked — and its channels are likewise opened iff the
status was 200. -/
theorem claim_C8 :
    (∀ r : TradingBot.RegResponse,
      ((TradingBot.register r).1 = false ↔
        (r.status ≠ 200 ∨ TradingBot.pyFalsy r.token = true ∨
          TradingBot.pyFalsy r.run_id = true)) ∧
      TradingBot.channelsOpened r = (TradingBot.register r).1 ∧
      ((TradingBot.register r).1 = true →
        (TradingBot.register r).2.1 = r.token ∧
        (TradingBot.register r).2.2 = r.run_id ∧
        TradingBot.pyFalsy r.token = false ∧ TradingBot.pyFalsy r.run_id = false)) ∧
    (∀ r : TradingBot.RegResponse,
      ((ManualTrader.register r).1 = true ↔ r.status = 200) ∧
      ManualTrader.channelsOpened r = (ManualTrader.register r).1) := by
  constructor
  · intro r
    refine ⟨?_, rfl, ?_⟩
    · simp only [TradingBot.register]
      split_ifs with h1 h2 <;> simp_all
    · intro hs
      simp only [TradingBot.register] at hs ⊢
      by_cases h1 : r.status ≠ 200
      · rw [if_pos h1] at hs
        simp at hs
      · by_cases h2 : (TradingBot.pyFalsy r.token || TradingBot.pyFalsy r.run_id) = true
        · rw [if_neg h1, if_pos h2] at hs
          simp at hs
        · rw [if_neg h1, if_neg h2] at hs ⊢
          simp only [Bool.or_eq_true] at h2
          push_neg at h2
          refine ⟨rfl, rfl, ?_, ?_⟩ <;> simp_all
  · intro r
    refine ⟨?_, rfl⟩
    simp only [ManualTrader.register]
    split_ifs with h1 <;> simp_all

/-- C8 witness: a successful registration stores the response credentials. -/
theorem claim_C8_witness :
    (TradingBot.register ⟨200, some "tok", some "rid"⟩).2.1 = some "tok" ∧
    (TradingBot.register ⟨200, some "tok", some "rid"⟩).2.2 = some "rid" :=
  ⟨((claim_C8.1 ⟨200, some "tok", some "rid"⟩).2.2 (by decide)).1,
   ((claim_C8.1 ⟨200, some "tok", some "rid"⟩).2.2 (by decide)).2.1⟩
